import Mathlib

/-!
Shallow embedding of the viewset layer of the music-app-api repository
(`app/playlist/views.py`) together with the parts of the surrounding
framework semantics (DRF generic mixins) and data model that the views
depend on.  Users are identified by a natural-number id; the database is
a triple of tables (songs, tags, playlists).  Each HTTP handler is a
function from the database, the authenticated principal (`Option Nat`,
`none` meaning unauthenticated) and the request data to a response
(and, for mutations, an updated database).
-/

namespace MusicApp

/-- Song row: `name` (string), `artist` (string, optional — modelled as a
possibly empty string), owning `user` (foreign key), with a primary key `id`. -/
structure Song where
  id : Nat
  name : String
  artist : String
  user : Nat
deriving DecidableEq, Repr

/-- Tag row: `name`, owning `user`, primary key `id`. -/
structure Tag where
  id : Nat
  name : String
  user : Nat
deriving DecidableEq, Repr

/-- Playlist row: `title`, `time_minutes`, `general_genre`, owning `user`,
primary key `id`, and the many-to-many association to songs and tags kept
as lists of row ids. -/
structure Playlist where
  id : Nat
  title : String
  time_minutes : Nat
  general_genre : String
  user : Nat
  songs : List Nat
  tags : List Nat
deriving DecidableEq, Repr

/-- The database: the three tables the playlist app queries. -/
structure Db where
  songs : List Song
  tags : List Tag
  playlists : List Playlist
deriving DecidableEq, Repr

/-- Well-formedness of the store: primary keys are unique within each table
(guaranteed by the underlying ORM). -/
def Db.WF (db : Db) : Prop :=
  (db.songs.map Song.id).Nodup ∧ (db.tags.map Tag.id).Nodup ∧
    (db.playlists.map Playlist.id).Nodup

instance (db : Db) : Decidable db.WF := by
  unfold Db.WF; infer_instance

/-- HTTP response of a handler: payload-carrying success (200), creation
(201), empty success (204), authentication failure (401), lookup failure
(404). -/
inductive Response (α : Type) where
  | ok : α → Response α
  | created : α → Response α
  | noContent : Response α
  | unauthorized : Response α
  | notFound : Response α
deriving DecidableEq, Repr

/-- HTTP status code of a response. -/
def Response.status : Response α → Nat
  | .ok _ => 200
  | .created _ => 201
  | .noContent => 204
  | .unauthorized => 401
  | .notFound => 404

/-- The payload of a successful response, `none` otherwise. -/
def Response.body? : Response α → Option α
  | .ok a => some a
  | .created a => some a
  | _ => none

/-- The list payload of a successful list response, `[]` otherwise. -/
def Response.bodyD : Response (List β) → List β
  | .ok l => l
  | .created l => l
  | _ => []

/-- The handler actions a DRF viewset exposes; `patch` stands for the
PATCH-method partial-update action of `UpdateModelMixin`. -/
inductive Action where
  | list
  | retrieve
  | create
  | update
  | patch
  | destroy
deriving DecidableEq, Repr

/-- Actions contributed by `mixins.ListModelMixin`. -/
def ListModelMixin.actions : List Action := [Action.list]

/-- Actions contributed by `mixins.RetrieveModelMixin`. -/
def RetrieveModelMixin.actions : List Action := [Action.retrieve]

/-- Actions contributed by `mixins.CreateModelMixin`. -/
def CreateModelMixin.actions : List Action := [Action.create]

/-- Actions contributed by `mixins.UpdateModelMixin` (PUT and PATCH). -/
def UpdateModelMixin.actions : List Action := [Action.update, Action.patch]

/-- Actions contributed by `mixins.DestroyModelMixin`. -/
def DestroyModelMixin.actions : List Action := [Action.destroy]

/-- Actions of `viewsets.ModelViewSet` (all five mixins). -/
def ModelViewSet.actions : List Action :=
  CreateModelMixin.actions ++ RetrieveModelMixin.actions ++
    UpdateModelMixin.actions ++ DestroyModelMixin.actions ++
      ListModelMixin.actions

/-- Ordering relation realising `order_by('-id')`: descending primary key. -/
def byDescId (a b : Playlist) : Prop := b.id ≤ a.id

/-- Ordering relation realising `order_by('-name')` on songs. -/
def songByDescName (a b : Song) : Prop := b.name ≤ a.name

/-- Ordering relation realising `order_by('-name')` on tags. -/
def tagByDescName (a b : Tag) : Prop := b.name ≤ a.name

instance : DecidableRel byDescId := fun a b => by
  unfold byDescId; infer_instance

instance : DecidableRel songByDescName := fun a b => by
  unfold songByDescName; infer_instance

instance : DecidableRel tagByDescName := fun a b => by
  unfold tagByDescName; infer_instance

instance : IsTotal Playlist byDescId :=
  ⟨fun a b => (Nat.le_total a.id b.id).symm⟩

instance : IsTrans Playlist byDescId :=
  ⟨fun _ _ _ hab hbc => le_trans hbc hab⟩

instance : IsTotal Song songByDescName :=
  ⟨fun a b => (le_total a.name b.name).symm⟩

instance : IsTrans Song songByDescName :=
  ⟨fun _ _ _ hab hbc => le_trans hbc hab⟩

instance : IsTotal Tag tagByDescName :=
  ⟨fun a b => (le_total a.name b.name).symm⟩

instance : IsTrans Tag tagByDescName :=
  ⟨fun _ _ _ hab hbc => le_trans hbc hab⟩

namespace PlaylistViewSet

/-- `PlaylistViewSet.actions`: the class extends `viewsets.ModelViewSet`. -/
def actions : List Action := ModelViewSet.actions

/-- `PlaylistViewSet.get_queryset`:
`self.queryset.filter(user=self.request.user).order_by('-id')`. -/
def get_queryset (db : Db) (user : Nat) : List Playlist :=
  List.insertionSort byDescId (db.playlists.filter (fun p => p.user == user))

/-- DRF `GenericAPIView.get_object` over the caller-scoped queryset: pick
the row of the queryset whose primary key matches, 404 otherwise. -/
def get_object (db : Db) (user : Nat) (pk : Nat) : Option Playlist :=
  (get_queryset db user).find? (fun p => p.id == pk)

/-- `list` action (`ListModelMixin.list` guarded by `IsAuthenticated`). -/
def list (db : Db) (auth : Option Nat) : Response (List Playlist) :=
  match auth with
  | none => Response.unauthorized
  | some u => Response.ok (get_queryset db u)

/-- `retrieve` action (`RetrieveModelMixin.retrieve` guarded by
`IsAuthenticated`). -/
def retrieve (db : Db) (auth : Option Nat) (pk : Nat) : Response Playlist :=
  match auth with
  | none => Response.unauthorized
  | some u =>
    match get_object db u pk with
    | none => Response.notFound
    | some p => Response.ok p

/-- Modelled from the spec: the write side of
`serializers.PlaylistDetailSerializer` (the serializers module is outside
the reviewed surface).  The request body supplies `title`, `time_minutes`,
`general_genre`, optional song/tag associations, and possibly a
client-supplied `user` value, which is never a writable serializer field. -/
structure PlaylistPayload where
  title : String
  time_minutes : Nat
  general_genre : String
  songs : List Nat
  tags : List Nat
  user : Option Nat
deriving DecidableEq, Repr

/-- `PlaylistViewSet.perform_create`: `serializer.save(user=self.request.user)` —
the stored row takes every writable field from the payload and the owner
from the authenticated requester, ignoring any client-supplied user. -/
def perform_create (db : Db) (user : Nat) (body : PlaylistPayload)
    (newId : Nat) : Db :=
  { db with
      playlists := db.playlists ++
        [{ id := newId, title := body.title,
           time_minutes := body.time_minutes,
           general_genre := body.general_genre,
           user := user, songs := body.songs, tags := body.tags }] }

/-- `create` action (`CreateModelMixin.create` guarded by `IsAuthenticated`,
delegating to `perform_create`); `newId` is the primary key assigned by the
storage engine. -/
def create (db : Db) (auth : Option Nat) (body : PlaylistPayload)
    (newId : Nat) : Response Playlist × Db :=
  match auth with
  | none => (Response.unauthorized, db)
  | some u =>
    let db' := perform_create db u body newId
    (Response.created
      { id := newId, title := body.title, time_minutes := body.time_minutes,
        general_genre := body.general_genre, user := u,
        songs := body.songs, tags := body.tags }, db')

/-- Modelled from the spec: a PATCH body for a playlist — each writable
field optionally supplied; `none` means the field is absent from the
request body. -/
structure PlaylistPatch where
  title : Option String
  time_minutes : Option Nat
  general_genre : Option String
  songs : Option (List Nat)
  tags : Option (List Nat)
deriving DecidableEq, Repr

/-- Modelled from the spec: partial-update semantics of the serializer —
supplied fields take the new value, unspecified fields retain prior values;
`id` and `user` are not writable. -/
def applyPlaylistPatch (p : Playlist) (body : PlaylistPatch) : Playlist :=
  { p with
      title := body.title.getD p.title,
      time_minutes := body.time_minutes.getD p.time_minutes,
      general_genre := body.general_genre.getD p.general_genre,
      songs := body.songs.getD p.songs,
      tags := body.tags.getD p.tags }

/-- `update`/`partial_update` actions (`UpdateModelMixin` guarded by
`IsAuthenticated`): resolve the row through the caller-scoped queryset,
apply the patch, save. A PUT is the special case where every field is
supplied. -/
def update (db : Db) (auth : Option Nat) (pk : Nat) (body : PlaylistPatch) :
    Response Playlist × Db :=
  match auth with
  | none => (Response.unauthorized, db)
  | some u =>
    match get_object db u pk with
    | none => (Response.notFound, db)
    | some p =>
      let p' := applyPlaylistPatch p body
      (Response.ok p',
        { db with
            playlists := db.playlists.map
              (fun q => if q.id == p.id then p' else q) })

/-- `destroy` action (`DestroyModelMixin.destroy` guarded by
`IsAuthenticated`): resolve through the caller-scoped queryset, delete. -/
def destroy (db : Db) (auth : Option Nat) (pk : Nat) :
    Response Unit × Db :=
  match auth with
  | none => (Response.unauthorized, db)
  | some u =>
    match get_object db u pk with
    | none => (Response.notFound, db)
    | some p =>
      (Response.noContent,
        { db with
            playlists := db.playlists.filter (fun q => !(q.id == p.id)) })

end PlaylistViewSet

namespace BasePlaylistAttrViewSet

/-- `BasePlaylistAttrViewSet` derives from `DestroyModelMixin`,
`UpdateModelMixin`, `ListModelMixin` and `GenericViewSet`: those mixins
are the only actions it exposes. -/
def actions : List Action :=
  DestroyModelMixin.actions ++ UpdateModelMixin.actions ++
    ListModelMixin.actions

end BasePlaylistAttrViewSet

namespace SongViewSet

/-- `SongViewSet` inherits every action from `BasePlaylistAttrViewSet`
and declares none of its own. -/
def actions : List Action := BasePlaylistAttrViewSet.actions

/-- `BasePlaylistAttrViewSet.get_queryset` at `queryset = Song.objects.all()`:
`self.queryset.filter(user=self.request.user).order_by('-name')`.
The class adds no filtering of its own: no query parameter is read. -/
def get_queryset (db : Db) (user : Nat) : List Song :=
  List.insertionSort songByDescName (db.songs.filter (fun s => s.user == user))

/-- DRF `get_object` over the caller-scoped song queryset. -/
def get_object (db : Db) (user : Nat) (pk : Nat) : Option Song :=
  (get_queryset db user).find? (fun s => s.id == pk)

/-- `list` action. `assigned_only` is the query parameter a client may pass;
`SongViewSet` never reads the request's query parameters, so it has no
effect on the result. -/
def list (db : Db) (auth : Option Nat) (assigned_only : Bool) :
    Response (List Song) :=
  match auth with
  | none => Response.unauthorized
  | some u =>
    let _ := assigned_only
    Response.ok (get_queryset db u)

/-- Modelled from the spec: a PATCH body for a song — the writable
serializer fields are `name` and `artist`; `none` means absent. -/
structure SongPatch where
  name : Option String
  artist : Option String
deriving DecidableEq, Repr

/-- Modelled from the spec: partial-update semantics of `SongSerializer` —
supplied fields take the new value, unspecified fields retain prior values;
`id` and `user` are not writable. -/
def applySongPatch (s : Song) (body : SongPatch) : Song :=
  { s with
      name := body.name.getD s.name,
      artist := body.artist.getD s.artist }

/-- `update`/`partial_update` actions on songs. -/
def update (db : Db) (auth : Option Nat) (pk : Nat) (body : SongPatch) :
    Response Song × Db :=
  match auth with
  | none => (Response.unauthorized, db)
  | some u =>
    match get_object db u pk with
    | none => (Response.notFound, db)
    | some s =>
      let s' := applySongPatch s body
      (Response.ok s',
        { db with
            songs := db.songs.map (fun t => if t.id == s.id then s' else t) })

/-- `destroy` action on songs. -/
def destroy (db : Db) (auth : Option Nat) (pk : Nat) :
    Response Unit × Db :=
  match auth with
  | none => (Response.unauthorized, db)
  | some u =>
    match get_object db u pk with
    | none => (Response.notFound, db)
    | some s =>
      (Response.noContent,
        { db with songs := db.songs.filter (fun t => !(t.id == s.id)) })

end SongViewSet

namespace TagViewSet

/-- `TagViewSet` inherits every action from `BasePlaylistAttrViewSet`. -/
def actions : List Action := BasePlaylistAttrViewSet.actions

/-- `BasePlaylistAttrViewSet.get_queryset` at `queryset = Tag.objects.all()`. -/
def get_queryset (db : Db) (user : Nat) : List Tag :=
  List.insertionSort tagByDescName (db.tags.filter (fun t => t.user == user))

/-- DRF `get_object` over the caller-scoped tag queryset. -/
def get_object (db : Db) (user : Nat) (pk : Nat) : Option Tag :=
  (get_queryset db user).find? (fun t => t.id == pk)

/-- `list` action on tags. -/
def list (db : Db) (auth : Option Nat) : Response (List Tag) :=
  match auth with
  | none => Response.unauthorized
  | some u => Response.ok (get_queryset db u)

/-- Modelled from the spec: a PATCH body for a tag — writable field `name`. -/
structure TagPatch where
  name : Option String
deriving DecidableEq, Repr

/-- Modelled from the spec: partial-update semantics of `TagSerializer`. -/
def applyTagPatch (t : Tag) (body : TagPatch) : Tag :=
  { t with name := body.name.getD t.name }

/-- `update`/`partial_update` actions on tags. -/
def update (db : Db) (auth : Option Nat) (pk : Nat) (body : TagPatch) :
    Response Tag × Db :=
  match auth with
  | none => (Response.unauthorized, db)
  | some u =>
    match get_object db u pk with
    | none => (Response.notFound, db)
    | some t =>
      let t' := applyTagPatch t body
      (Response.ok t',
        { db with
            tags := db.tags.map (fun r => if r.id == t.id then t' else r) })

/-- `destroy` action on tags. -/
def destroy (db : Db) (auth : Option Nat) (pk : Nat) :
    Response Unit × Db :=
  match auth with
  | none => (Response.unauthorized, db)
  | some u =>
    match get_object db u pk with
    | none => (Response.notFound, db)
    | some t =>
      (Response.noContent,
        { db with tags := db.tags.filter (fun r => !(r.id == t.id)) })

end TagViewSet

/-- Concrete store mirroring the repository test
`test_filter_songs_assigned_to_playlists`: user 1 owns the songs
"Back in Black" (id 1, added to the playlist "ACDC pack") and "TNT"
(id 2, added to no playlist). -/
def acdcStore : Db :=
  { songs := [⟨1, "Back in Black", "", 1⟩, ⟨2, "TNT", "", 1⟩],
    tags := [],
    playlists := [⟨1, "ACDC pack", 6, "Rock n Roll", 1, [1], []⟩] }

/-- Concrete store mirroring the repository test `test_update_song`:
user 1 owns the single song "Beat it" by Jackson. -/
def soloSongStore : Db :=
  { songs := [⟨1, "Beat it", "Jackson", 1⟩], tags := [], playlists := [] }

/-- Concrete store in which every row belongs to user 2: one song, one tag
and one playlist, none of them visible to user 1. -/
def foreignStore : Db :=
  { songs := [⟨1, "Drain you", "Nirvana", 2⟩],
    tags := [⟨1, "grunge", 2⟩],
    playlists := [⟨7, "Other", 3, "rock", 2, [], []⟩] }

/-!
Helper lemmas about the caller-scoped querysets and object lookup of the
three viewsets.
-/

theorem mem_song_queryset {db : Db} {u : Nat} {s : Song} :
    s ∈ SongViewSet.get_queryset db u ↔ s ∈ db.songs ∧ s.user = u := by
  unfold SongViewSet.get_queryset
  simp only [List.mem_insertionSort, List.mem_filter, beq_iff_eq]

theorem mem_tag_queryset {db : Db} {u : Nat} {t : Tag} :
    t ∈ TagViewSet.get_queryset db u ↔ t ∈ db.tags ∧ t.user = u := by
  unfold TagViewSet.get_queryset
  simp only [List.mem_insertionSort, List.mem_filter, beq_iff_eq]

theorem mem_playlist_queryset {db : Db} {u : Nat} {p : Playlist} :
    p ∈ PlaylistViewSet.get_queryset db u ↔ p ∈ db.playlists ∧ p.user = u := by
  unfold PlaylistViewSet.get_queryset
  simp only [List.mem_insertionSort, List.mem_filter, beq_iff_eq]

theorem song_get_object_mem {db : Db} {u pk : Nat} {x : Song}
    (h : SongViewSet.get_object db u pk = some x) :
    x ∈ db.songs ∧ x.user = u ∧ x.id = pk := by
  unfold SongViewSet.get_object at h
  have hm := List.mem_of_find?_eq_some h
  have hp := List.find?_some h
  rw [mem_song_queryset] at hm
  exact ⟨hm.1, hm.2, by simpa using hp⟩

theorem tag_get_object_mem {db : Db} {u pk : Nat} {x : Tag}
    (h : TagViewSet.get_object db u pk = some x) :
    x ∈ db.tags ∧ x.user = u ∧ x.id = pk := by
  unfold TagViewSet.get_object at h
  have hm := List.mem_of_find?_eq_some h
  have hp := List.find?_some h
  rw [mem_tag_queryset] at hm
  exact ⟨hm.1, hm.2, by simpa using hp⟩

theorem playlist_get_object_mem {db : Db} {u pk : Nat} {x : Playlist}
    (h : PlaylistViewSet.get_object db u pk = some x) :
    x ∈ db.playlists ∧ x.user = u ∧ x.id = pk := by
  unfold PlaylistViewSet.get_object at h
  have hm := List.mem_of_find?_eq_some h
  have hp := List.find?_some h
  rw [mem_playlist_queryset] at hm
  exact ⟨hm.1, hm.2, by simpa using hp⟩

theorem song_get_object_eq_none {db : Db} {u pk : Nat}
    (h : ∀ s ∈ db.songs, s.id = pk → s.user ≠ u) :
    SongViewSet.get_object db u pk = none := by
  unfold SongViewSet.get_object
  rw [List.find?_eq_none]
  intro x hx
  rw [mem_song_queryset] at hx
  simp only [beq_iff_eq]
  exact fun hid => h x hx.1 hid hx.2

theorem tag_get_object_eq_none {db : Db} {u pk : Nat}
    (h : ∀ t ∈ db.tags, t.id = pk → t.user ≠ u) :
    TagViewSet.get_object db u pk = none := by
  unfold TagViewSet.get_object
  rw [List.find?_eq_none]
  intro x hx
  rw [mem_tag_queryset] at hx
  simp only [beq_iff_eq]
  exact fun hid => h x hx.1 hid hx.2

theorem playlist_get_object_eq_none {db : Db} {u pk : Nat}
    (h : ∀ p ∈ db.playlists, p.id = pk → p.user ≠ u) :
    PlaylistViewSet.get_object db u pk = none := by
  unfold PlaylistViewSet.get_object
  rw [List.find?_eq_none]
  intro x hx
  rw [mem_playlist_queryset] at hx
  simp only [beq_iff_eq]
  exact fun hid => h x hx.1 hid hx.2

theorem song_get_object_of_mem {db : Db} {u : Nat} {s : Song}
    (hwf : db.WF) (hs : s ∈ db.songs) (hu : s.user = u) :
    SongViewSet.get_object db u s.id = some s := by
  cases hfind : SongViewSet.get_object db u s.id with
  | none =>
    exfalso
    unfold SongViewSet.get_object at hfind
    rw [List.find?_eq_none] at hfind
    exact hfind s (mem_song_queryset.mpr ⟨hs, hu⟩) (by simp)
  | some x =>
    have hx := song_get_object_mem hfind
    exact congrArg some (List.inj_on_of_nodup_map hwf.1 hx.1 hs hx.2.2)

theorem tag_get_object_of_mem {db : Db} {u : Nat} {t : Tag}
    (hwf : db.WF) (ht : t ∈ db.tags) (hu : t.user = u) :
    TagViewSet.get_object db u t.id = some t := by
  cases hfind : TagViewSet.get_object db u t.id with
  | none =>
    exfalso
    unfold TagViewSet.get_object at hfind
    rw [List.find?_eq_none] at hfind
    exact hfind t (mem_tag_queryset.mpr ⟨ht, hu⟩) (by simp)
  | some x =>
    have hx := tag_get_object_mem hfind
    exact congrArg some (List.inj_on_of_nodup_map hwf.2.1 hx.1 ht hx.2.2)

theorem playlist_get_object_of_mem {db : Db} {u : Nat} {p : Playlist}
    (hwf : db.WF) (hp : p ∈ db.playlists) (hu : p.user = u) :
    PlaylistViewSet.get_object db u p.id = some p := by
  cases hfind : PlaylistViewSet.get_object db u p.id with
  | none =>
    exfalso
    unfold PlaylistViewSet.get_object at hfind
    rw [List.find?_eq_none] at hfind
    exact hfind p (mem_playlist_queryset.mpr ⟨hp, hu⟩) (by simp)
  | some x =>
    have hx := playlist_get_object_mem hfind
    exact congrArg some (List.inj_on_of_nodup_map hwf.2.2 hx.1 hp hx.2.2)

/-!
The claims.
-/

/-- Claim C1: the specification (and the repository's own tests) say that a
GET on the song collection with `assigned_only` truthy returns exactly the
songs associated with at least one playlist, without duplicates.  The code's
`SongViewSet` never reads the request's query parameters, so the parameter
has no effect: at the store of the repository test
`test_filter_songs_assigned_to_playlists`, the song "TNT" (id 2) is
assigned to no playlist, yet it appears in the `assigned_only=1` listing. -/
theorem claim_C1_assigned_only_has_no_effect :
    (∀ (db : Db) (auth : Option Nat) (b b' : Bool),
      SongViewSet.list db auth b = SongViewSet.list db auth b') ∧
    acdcStore.playlists.all (fun p => !(p.songs.contains 2)) = true ∧
    (⟨2, "TNT", "", 1⟩ : Song) ∈
      Response.bodyD (SongViewSet.list acdcStore (some 1) true) := by
  refine ⟨fun db auth b b' => by cases auth <;> rfl, by decide, ?_⟩
  show (⟨2, "TNT", "", 1⟩ : Song) ∈ SongViewSet.get_queryset acdcStore 1
  rw [mem_song_queryset]
  exact ⟨by decide, rfl⟩

/-- Claim C2, counterexample: the Song resource does not support every one
of list, retrieve, create, update and delete — `SongViewSet` inherits only
the destroy, update and list mixins, so no create or retrieve handler is
exposed. -/
theorem claim_C2_counterexample :
    Action.create ∉ SongViewSet.actions ∧
      Action.retrieve ∉ SongViewSet.actions := by
  decide

/-- Claim C2, amended: the Song resource exposes exactly the actions list,
update, partial-update (PATCH) and delete — not create or retrieve — and an
authenticated user can invoke list, update and delete successfully on their
own songs. -/
theorem claim_C2_song_actions :
    (∀ a, a ∈ SongViewSet.actions ↔
      (a = Action.destroy ∨ a = Action.update ∨ a = Action.patch ∨
        a = Action.list)) ∧
    (∀ (db : Db) (u : Nat) (b : Bool),
      (SongViewSet.list db (some u) b).status = 200) ∧
    (∀ (db : Db) (u : Nat) (s : Song) (body : SongViewSet.SongPatch),
      s ∈ db.songs → s.user = u →
        ((SongViewSet.update db (some u) s.id body).1).status = 200) ∧
    (∀ (db : Db) (u : Nat) (s : Song),
      s ∈ db.songs → s.user = u →
        ((SongViewSet.destroy db (some u) s.id).1).status = 204) := by
  refine ⟨fun a => by cases a <;> decide, fun db u b => rfl, ?_, ?_⟩
  · intro db u s body hs hu
    cases hfind : SongViewSet.get_object db u s.id with
    | none =>
      exfalso
      unfold SongViewSet.get_object at hfind
      rw [List.find?_eq_none] at hfind
      exact hfind s (mem_song_queryset.mpr ⟨hs, hu⟩) (by simp)
    | some x =>
      simp only [SongViewSet.update, hfind]
      rfl
  · intro db u s hs hu
    cases hfind : SongViewSet.get_object db u s.id with
    | none =>
      exfalso
      unfold SongViewSet.get_object at hfind
      rw [List.find?_eq_none] at hfind
      exact hfind s (mem_song_queryset.mpr ⟨hs, hu⟩) (by simp)
    | some x =>
      simp only [SongViewSet.destroy, hfind]
      rfl

/-- Claim C2, witness: at the store of the repository test
`test_update_song`, user 1 updating their own song id 1 gets a 200. -/
theorem claim_C2_song_actions_witness :
    ((SongViewSet.update soloSongStore (some 1) 1
      { name := some "CoolName", artist := none }).1).status = 200 :=
  claim_C2_song_actions.2.2.1 soloSongStore 1 ⟨1, "Beat it", "Jackson", 1⟩
    { name := some "CoolName", artist := none } (by decide) rfl

/-- Claim C3: for any two distinct users, no song, tag or playlist owned by
the second user ever appears in a list response returned to the first,
whatever the contents of the store. -/
theorem claim_C3_cross_user_isolation :
    ∀ (db : Db) (u1 u2 : Nat) (b : Bool), u1 ≠ u2 →
      (Response.bodyD (SongViewSet.list db (some u1) b)).all
          (fun s => s.user != u2) = true ∧
      (Response.bodyD (TagViewSet.list db (some u1))).all
          (fun t => t.user != u2) = true ∧
      (Response.bodyD (PlaylistViewSet.list db (some u1))).all
          (fun p => p.user != u2) = true := by
  intro db u1 u2 b h12
  refine ⟨?_, ?_, ?_⟩
  · show (SongViewSet.get_queryset db u1).all (fun s => s.user != u2) = true
    rw [List.all_eq_true]
    intro s hs
    rw [mem_song_queryset] at hs
    simp only [bne_iff_ne, hs.2]
    exact h12
  · show (TagViewSet.get_queryset db u1).all (fun t => t.user != u2) = true
    rw [List.all_eq_true]
    intro t ht
    rw [mem_tag_queryset] at ht
    simp only [bne_iff_ne, ht.2]
    exact h12
  · show (PlaylistViewSet.get_queryset db u1).all (fun p => p.user != u2) = true
    rw [List.all_eq_true]
    intro p hp
    rw [mem_playlist_queryset] at hp
    simp only [bne_iff_ne, hp.2]
    exact h12

/-- Claim C3, witness: in a store where every row is owned by user 2, none
of user 1's list responses exposes a row of user 2. -/
theorem claim_C3_witness :
    (Response.bodyD (SongViewSet.list foreignStore (some 1) false)).all
        (fun s => s.user != 2) = true ∧
      (Response.bodyD (TagViewSet.list foreignStore (some 1))).all
          (fun t => t.user != 2) = true ∧
      (Response.bodyD (PlaylistViewSet.list foreignStore (some 1))).all
          (fun p => p.user != 2) = true :=
  claim_C3_cross_user_isolation foreignStore 1 2 false (by decide)

/-- Claim C4: creating a playlist stores the authenticated requester as the
owner: the response and the appended row take every writable field from the
request body but the owner from the authenticated principal, whatever user
value the client supplied in the body. -/
theorem claim_C4_owner_forced :
    ∀ (db : Db) (u : Nat) (body : PlaylistViewSet.PlaylistPayload)
      (newId : Nat),
      ∃ p, PlaylistViewSet.create db (some u) body newId =
          (Response.created p, { db with playlists := db.playlists ++ [p] }) ∧
        p.user = u ∧ p.title = body.title ∧
        p.time_minutes = body.time_minutes ∧
        p.general_genre = body.general_genre ∧ p.songs = body.songs :=
  fun db u body newId =>
    ⟨{ id := newId, title := body.title, time_minutes := body.time_minutes,
       general_genre := body.general_genre, user := u,
       songs := body.songs, tags := body.tags },
      rfl, rfl, rfl, rfl, rfl, rfl⟩

/-- Claim C5: listing playlists succeeds for an authenticated caller and
returns exactly the caller's playlists sorted by descending id, and a
successful playlist retrieval only ever yields a row of the store that is
owned by the caller and carries the requested id. -/
theorem claim_C5_playlist_scoping_and_order :
    ∀ (db : Db) (u pk : Nat),
      (PlaylistViewSet.list db (some u)).status = 200 ∧
      (∀ p, p ∈ Response.bodyD (PlaylistViewSet.list db (some u)) ↔
        p ∈ db.playlists ∧ p.user = u) ∧
      List.Sorted byDescId (Response.bodyD (PlaylistViewSet.list db (some u))) ∧
      Option.all
          (fun p => decide (p ∈ db.playlists) && (p.user == u) && (p.id == pk))
          (Response.body? (PlaylistViewSet.retrieve db (some u) pk)) = true := by
  intro db u pk
  refine ⟨rfl, fun p => mem_playlist_queryset,
    List.sorted_insertionSort byDescId _, ?_⟩
  cases hq : PlaylistViewSet.get_object db u pk with
  | none => simp only [PlaylistViewSet.retrieve, hq, Response.body?, Option.all]
  | some q =>
    have h := playlist_get_object_mem hq
    simp only [PlaylistViewSet.retrieve, hq, Response.body?, Option.all,
      Bool.and_eq_true, beq_iff_eq, decide_eq_true_eq]
    exact ⟨⟨h.1, h.2.1⟩, h.2.2⟩

/-- Claim C6: listing songs and listing tags both succeed for an
authenticated caller and return exactly the caller's rows sorted by
descending name. -/
theorem claim_C6_attr_scoping_and_order :
    ∀ (db : Db) (u : Nat) (b : Bool),
      (SongViewSet.list db (some u) b).status = 200 ∧
      (∀ s, s ∈ Response.bodyD (SongViewSet.list db (some u) b) ↔
        s ∈ db.songs ∧ s.user = u) ∧
      List.Sorted songByDescName
        (Response.bodyD (SongViewSet.list db (some u) b)) ∧
      (TagViewSet.list db (some u)).status = 200 ∧
      (∀ t, t ∈ Response.bodyD (TagViewSet.list db (some u)) ↔
        t ∈ db.tags ∧ t.user = u) ∧
      List.Sorted tagByDescName
        (Response.bodyD (TagViewSet.list db (some u))) :=
  fun db u b =>
    ⟨rfl, fun s => mem_song_queryset,
      List.sorted_insertionSort songByDescName _,
      rfl, fun t => mem_tag_queryset,
      List.sorted_insertionSort tagByDescName _⟩

/-- Claim C7: when no playlist with the requested id is owned by the
caller, every detail operation — retrieve (GET), update (PUT/PATCH) and
destroy (DELETE) — answers not-found, and the mutations leave the store
untouched. -/
theorem claim_C7_foreign_playlist_not_found :
    ∀ (db : Db) (u pk : Nat),
      (∀ p ∈ db.playlists, p.id = pk → p.user ≠ u) →
      PlaylistViewSet.retrieve db (some u) pk = Response.notFound ∧
      (∀ body, PlaylistViewSet.update db (some u) pk body =
        (Response.notFound, db)) ∧
      PlaylistViewSet.destroy db (some u) pk = (Response.notFound, db) := by
  intro db u pk h
  have hq := playlist_get_object_eq_none h
  exact ⟨by simp only [PlaylistViewSet.retrieve, hq],
    fun body => by simp only [PlaylistViewSet.update, hq],
    by simp only [PlaylistViewSet.destroy, hq]⟩

/-- Claim C7, witness: playlist 7 belongs to user 2, so user 1 retrieving
it gets not-found. -/
theorem claim_C7_witness :
    PlaylistViewSet.retrieve foreignStore (some 1) 7 = Response.notFound :=
  (claim_C7_foreign_playlist_not_found foreignStore 1 7 (by decide)).1

/-- Claim C8: every playlist, song and tag endpoint answers an
unauthenticated request with status 401 and no resource data, and the
mutating handlers leave the store untouched. -/
theorem claim_C8_unauthenticated_401 :
    ∀ (db : Db) (pk newId : Nat) (b : Bool)
      (pl : PlaylistViewSet.PlaylistPayload)
      (pbody : PlaylistViewSet.PlaylistPatch)
      (sbody : SongViewSet.SongPatch) (tbody : TagViewSet.TagPatch),
      (PlaylistViewSet.list db none).status = 401 ∧
      PlaylistViewSet.list db none = Response.unauthorized ∧
      (PlaylistViewSet.retrieve db none pk).status = 401 ∧
      PlaylistViewSet.create db none pl newId = (Response.unauthorized, db) ∧
      PlaylistViewSet.update db none pk pbody = (Response.unauthorized, db) ∧
      PlaylistViewSet.destroy db none pk = (Response.unauthorized, db) ∧
      (SongViewSet.list db none b).status = 401 ∧
      SongViewSet.list db none b = Response.unauthorized ∧
      SongViewSet.update db none pk sbody = (Response.unauthorized, db) ∧
      SongViewSet.destroy db none pk = (Response.unauthorized, db) ∧
      (TagViewSet.list db none).status = 401 ∧
      TagViewSet.list db none = Response.unauthorized ∧
      TagViewSet.update db none pk tbody = (Response.unauthorized, db) ∧
      TagViewSet.destroy db none pk = (Response.unauthorized, db) :=
  fun _ _ _ _ _ _ _ _ =>
    ⟨rfl, rfl, rfl, rfl, rfl, rfl, rfl, rfl, rfl, rfl, rfl, rfl, rfl, rfl⟩

/-- Claim C9: a PATCH on one of the caller's songs stores, under that id,
exactly the old row with the supplied fields replaced — a supplied name or
artist takes the new value, an unsupplied one retains the prior value, and
id and owner are untouched — and every other song row is carried over
unchanged. -/
theorem claim_C9_patch_updates_only_supplied_fields :
    ∀ (db : Db) (u : Nat) (s : Song) (body : SongViewSet.SongPatch),
      db.WF → s ∈ db.songs → s.user = u →
      SongViewSet.update db (some u) s.id body =
        (Response.ok
          { id := s.id, name := body.name.getD s.name,
            artist := body.artist.getD s.artist, user := s.user },
         { db with
             songs := db.songs.map fun t =>
               if t.id == s.id then
                 { id := s.id, name := body.name.getD s.name,
                   artist := body.artist.getD s.artist, user := s.user }
               else t }) ∧
      (∀ t ∈ db.songs, t.id ≠ s.id →
        t ∈ (SongViewSet.update db (some u) s.id body).2.songs) := by
  intro db u s body hwf hs hu
  have hq := song_get_object_of_mem hwf hs hu
  have hmain : SongViewSet.update db (some u) s.id body =
      (Response.ok
        { id := s.id, name := body.name.getD s.name,
          artist := body.artist.getD s.artist, user := s.user },
       { db with
           songs := db.songs.map fun t =>
             if t.id == s.id then
               { id := s.id, name := body.name.getD s.name,
                 artist := body.artist.getD s.artist, user := s.user }
             else t }) := by
    simp only [SongViewSet.update, hq]
    rfl
  refine ⟨hmain, ?_⟩
  intro t ht hne
  rw [hmain]
  exact List.mem_map.mpr ⟨t, ht, by simp [hne]⟩

/-- Claim C9, witness: at the store of the repository test
`test_update_song`, patching song 1 with only a new name keeps the artist
and owner and replaces the name. -/
theorem claim_C9_witness :
    SongViewSet.update soloSongStore (some 1) 1
        { name := some "CoolName", artist := none } =
      (Response.ok ⟨1, "CoolName", "Jackson", 1⟩,
        { songs := [⟨1, "CoolName", "Jackson", 1⟩], tags := [],
          playlists := [] }) :=
  (claim_C9_patch_updates_only_supplied_fields soloSongStore 1
    ⟨1, "Beat it", "Jackson", 1⟩ { name := some "CoolName", artist := none }
    (by decide) (by decide) rfl).1

/-- Claim C10: every mutation is resolved against the caller-scoped
queryset, so rows owned by other users survive any update or delete request
unchanged, and targeting another user's row by id fails with not-found
without modifying the store. -/
theorem claim_C10_mutations_scoped_to_caller :
    ∀ (db : Db) (u pk : Nat) (sbody : SongViewSet.SongPatch)
      (tbody : TagViewSet.TagPatch) (pbody : PlaylistViewSet.PlaylistPatch),
      db.WF →
      (∀ s ∈ db.songs, s.user ≠ u →
        s ∈ (SongViewSet.update db (some u) pk sbody).2.songs ∧
        s ∈ (SongViewSet.destroy db (some u) pk).2.songs) ∧
      (∀ t ∈ db.tags, t.user ≠ u →
        t ∈ (TagViewSet.update db (some u) pk tbody).2.tags ∧
        t ∈ (TagViewSet.destroy db (some u) pk).2.tags) ∧
      (∀ p ∈ db.playlists, p.user ≠ u →
        p ∈ (PlaylistViewSet.update db (some u) pk pbody).2.playlists ∧
        p ∈ (PlaylistViewSet.destroy db (some u) pk).2.playlists) ∧
      ((∀ s ∈ db.songs, s.id = pk → s.user ≠ u) →
        SongViewSet.update db (some u) pk sbody = (Response.notFound, db) ∧
        SongViewSet.destroy db (some u) pk = (Response.notFound, db)) ∧
      ((∀ t ∈ db.tags, t.id = pk → t.user ≠ u) →
        TagViewSet.update db (some u) pk tbody = (Response.notFound, db) ∧
        TagViewSet.destroy db (some u) pk = (Response.notFound, db)) := by
  intro db u pk sbody tbody pbody hwf
  refine ⟨?_, ?_, ?_, ?_, ?_⟩
  · intro s hs hsu
    constructor
    · cases hq : SongViewSet.get_object db u pk with
      | none => simp only [SongViewSet.update, hq]; exact hs
      | some x =>
        have hx := song_get_object_mem hq
        have hne : s.id ≠ x.id := fun he =>
          hsu (by rw [List.inj_on_of_nodup_map hwf.1 hs hx.1 he]; exact hx.2.1)
        simp only [SongViewSet.update, hq]
        exact List.mem_map.mpr ⟨s, hs, by simp [hne]⟩
    · cases hq : SongViewSet.get_object db u pk with
      | none => simp only [SongViewSet.destroy, hq]; exact hs
      | some x =>
        have hx := song_get_object_mem hq
        have hne : s.id ≠ x.id := fun he =>
          hsu (by rw [List.inj_on_of_nodup_map hwf.1 hs hx.1 he]; exact hx.2.1)
        simp only [SongViewSet.destroy, hq]
        exact List.mem_filter.mpr ⟨hs, by simp [hne]⟩
  · intro t ht htu
    constructor
    · cases hq : TagViewSet.get_object db u pk with
      | none => simp only [TagViewSet.update, hq]; exact ht
      | some x =>
        have hx := tag_get_object_mem hq
        have hne : t.id ≠ x.id := fun he =>
          htu (by rw [List.inj_on_of_nodup_map hwf.2.1 ht hx.1 he]; exact hx.2.1)
        simp only [TagViewSet.update, hq]
        exact List.mem_map.mpr ⟨t, ht, by simp [hne]⟩
    · cases hq : TagViewSet.get_object db u pk with
      | none => simp only [TagViewSet.destroy, hq]; exact ht
      | some x =>
        have hx := tag_get_object_mem hq
        have hne : t.id ≠ x.id := fun he =>
          htu (by rw [List.inj_on_of_nodup_map hwf.2.1 ht hx.1 he]; exact hx.2.1)
        simp only [TagViewSet.destroy, hq]
        exact List.mem_filter.mpr ⟨ht, by simp [hne]⟩
  · intro p hp hpu
    constructor
    · cases hq : PlaylistViewSet.get_object db u pk with
      | none => simp only [PlaylistViewSet.update, hq]; exact hp
      | some x =>
        have hx := playlist_get_object_mem hq
        have hne : p.id ≠ x.id := fun he =>
          hpu (by rw [List.inj_on_of_nodup_map hwf.2.2 hp hx.1 he]; exact hx.2.1)
        simp only [PlaylistViewSet.update, hq]
        exact List.mem_map.mpr ⟨p, hp, by simp [hne]⟩
    · cases hq : PlaylistViewSet.get_object db u pk with
      | none => simp only [PlaylistViewSet.destroy, hq]; exact hp
      | some x =>
        have hx := playlist_get_object_mem hq
        have hne : p.id ≠ x.id := fun he =>
          hpu (by rw [List.inj_on_of_nodup_map hwf.2.2 hp hx.1 he]; exact hx.2.1)
        simp only [PlaylistViewSet.destroy, hq]
        exact List.mem_filter.mpr ⟨hp, by simp [hne]⟩
  · intro h
    have hq := song_get_object_eq_none h
    exact ⟨by simp only [SongViewSet.update, hq],
      by simp only [SongViewSet.destroy, hq]⟩
  · intro h
    have hq := tag_get_object_eq_none h
    exact ⟨by simp only [TagViewSet.update, hq],
      by simp only [TagViewSet.destroy, hq]⟩

/-- Claim C10, witness: user 2's song survives, unchanged, user 1's update
and delete requests aimed at its id. -/
theorem claim_C10_witness :
    (⟨1, "Drain you", "Nirvana", 2⟩ : Song) ∈
        (SongViewSet.update foreignStore (some 1) 1
          { name := none, artist := none }).2.songs ∧
      (⟨1, "Drain you", "Nirvana", 2⟩ : Song) ∈
        (SongViewSet.destroy foreignStore (some 1) 1).2.songs :=
  (claim_C10_mutations_scoped_to_caller foreignStore 1 1
      { name := none, artist := none } { name := none }
      { title := none, time_minutes := none, general_genre := none,
        songs := none, tags := none }
      (by decide)).1 ⟨1, "Drain you", "Nirvana", 2⟩ (by decide) (by decide)

end MusicApp
